import Mathlib

/-
Verification of the checkout-reconciliation and build-driver logic of
src/flightgear_build.py (FlightGearBuildScripts).

The script is straight-line Python gluing external tools together.  We embed
it shallowly:

  * the filesystem state of one target checkout directory is a `Dir`
    (absent / valid subversion copy / valid git clone / plain directory
    without a version-control marker);
  * each `download_*` function of the script is embedded twice, as
      - an *action plan*: the list of log messages, renames and external
        commands it issues (`..._acts`), decisions depending only on the
        observed directory state, exactly as in the source, and
      - a *state transformer* (`..._state`) giving the resulting directory
        state under the assumption that the external commands succeed;
  * `subprocess.check_call` propagation (function `run`, line 33) is embedded
    by the executor `runActs`: an exit-code oracle assigns a status to each
    external command, the first non-zero status stops execution and is
    reported together with the failing command;
  * `__main__` (lines 674-720) is embedded as `main_sequence` / `main_acts`.

Line numbers in comments refer to src/flightgear_build.py.
-/

/-- State of one target checkout directory, as observed by the script via
`os.path.exists(dir)`, `os.path.exists(dir/.svn)`, `os.path.exists(dir/.git)`.
`svnDir rev tree`: valid subversion working copy at revision `rev` with
working-tree content `tree`.  `gitDir head tree mods`: valid git clone at
commit `head`, content `tree`, `mods` = uncommitted local modifications.
`plainDir tree`: directory exists but carries no version-control marker. -/
inductive Dir where
  | absent
  | svnDir (rev : String) (tree : String)
  | gitDir (head : String) (tree : String) (mods : Bool)
  | plainDir (tree : String)
deriving DecidableEq

def dirExists : Dir → Bool
  | Dir.absent => false
  | _ => true

def hasSvnMarker : Dir → Bool
  | Dir.svnDir _ _ => true
  | _ => false

def hasGitMarker : Dir → Bool
  | Dir.gitDir _ _ _ => true
  | _ => false

/-- Log messages emitted by the download functions (the exact wording of the
source is abbreviated to a tag; what matters for the claims is the severity
and on which path each message is emitted). -/
inductive Msg where
  | movingInvalid    -- warning: "source directory doesn't appear to be a ... copy/clone. Moving and starting over."
  | movingNoUpdate   -- debug: "Old directory found -- moving since update=False"
  | runningClone     -- debug: "Running git clone to obtain a fresh copy"
  | runningUpdate    -- debug: "Running svn update in existing local copy"
  | runningCheckout  -- debug: "Running svn checkout to obtain a fresh copy"
  | selectedRevision -- debug: "Selected revision: ..."
deriving DecidableEq

/-- External commands invoked through `run` (= subprocess.check_call). -/
inductive Cmd where
  | svnCheckout (repo : String) (rev : Option String)
  | svnUpdate (rev : Option String)
  | gitClone (repo : String)
  | gitFetch
  | gitCheckoutForce (ref : String)
  | gitResetHard
  | autogen
  | configure (installDir : String)
  | cmake (installDir : String)
  | make (flags : List String)
  | makeInstall
deriving DecidableEq

/-- One observable step of the script: an external command, a log line, or a
direct filesystem mutation (`os.rename`, `os.unlink`, `os.symlink`,
`open(...,'w')`).  `pyError` marks the unconditional Python exception raised
while generating the debug launcher stub (see `fgfs_launcher_writes`). -/
inductive Act where
  | cmd (c : Cmd)
  | warn (m : Msg)
  | debug (m : Msg)
  | rename (dst : String)
  | unlinkCache
  | symlinkLib
  | writeFile (name : String)
  | pyError
deriving DecidableEq

/-- `"{}.{}".format(dir, int(time.time()))` — the timestamped name a stale
directory is renamed to (lines 220, 297, 368, 441, 511, 662). -/
def tsName (dirName : String) (now : Nat) : String :=
  dirName ++ "." ++ toString now

/- ===== repository constants (lines 193-194, 276-277, 347-349, 420-422,
   491-492, 634-635) ===== -/

def PLIB_REPO : String := "http://plib.svn.sourceforge.net/svnroot/plib/trunk"

def PLIB_STABLE_REVISION : String := "2172"

def OSG_STABLE_REVISION : String :=
  "http://svn.openscenegraph.org/osg/OpenSceneGraph/tags/OpenSceneGraph-3.1.1/"

def OSG_UNSTABLE_REVISION : String :=
  "http://svn.openscenegraph.org/osg/OpenSceneGraph/tags/OpenSceneGraph-3.1.7/"

def OPENRTI_REPO : String := "git://gitorious.org/openrti/openrti.git"

def OPENRTI_UNSTABLE : String := "master"

def OPENRTI_STABLE : String := "OpenRTI-0.3.0"

def SIMGEAR_REPO : String := "git://gitorious.org/fg/simgear.git"

def SIMGEAR_STABLE : String := "version/2.10.0-final"

def SIMGEAR_UNSTABLE : String := "remotes/origin/next"

def FGFS_STABLE : String := "version/2.10.0-final"

def FGFS_REPO : String := "git://gitorious.org/fg/flightgear.git"

def FGFS_DATA_STABLE : String := "version/2.10.0-final"

def FGFS_DATA_REPO : String := "git://gitorious.org/fg/fgdata.git"

/- ===== select_git_branch (lines 104-112) ===== -/

/-- `select_git_branch(repo_dir, branch)`: `git fetch`; `git checkout --force
branch`; `git reset --hard` — issued in this order, each through `run`. -/
def select_git_branch_acts (branch : String) : List Act :=
  [Act.cmd Cmd.gitFetch, Act.cmd (Cmd.gitCheckoutForce branch), Act.cmd Cmd.gitResetHard]

/- ===== the git-based download functions (download_openrti lines 352-376,
   download_simgear lines 425-449, download_fgfs lines 495-519,
   download_fgdata lines 643-670 — identical decision logic, different
   constants) ===== -/

/-- The move/clone part of a git download function, before the
`select_git_branch` call: `need_move` is set when the directory exists and
either `update` is false (debug message) or the `.git` marker is missing
(warning); a set `need_move` renames the directory to its timestamped name;
a missing directory (originally missing, or just moved away) is cloned. -/
def git_download_pre (d : Dir) (update : Bool) (repo : String)
    (name : String) (now : Nat) : List Act :=
  let needMove := dirExists d && (!update || !hasGitMarker d)
  (if needMove then
     [(if !update then Act.debug Msg.movingNoUpdate else Act.warn Msg.movingInvalid),
      Act.rename (tsName name now)]
   else []) ++
  (if !dirExists d || needMove then
     [Act.debug Msg.runningClone, Act.cmd (Cmd.gitClone repo)]
   else [])

/-- Full action plan of a git download function: move/clone logic followed by
the unconditional `select_git_branch` call. -/
def git_download_acts (d : Dir) (update : Bool) (repo branch : String)
    (name : String) (now : Nat) : List Act :=
  git_download_pre d update repo name now ++ select_git_branch_acts branch

/-- A (fixed-for-the-run) model of the remote git repository: ref name to
commit, commit to working-tree content, and the default branch head a fresh
clone starts at. -/
structure GitRemote where
  refs : List (String × String)
  trees : List (String × String)
  defaultHead : String
deriving DecidableEq

def resolveRef (R : GitRemote) (b : String) : String :=
  (R.refs.lookup b).getD b

def treeOf (R : GitRemote) (c : String) : String :=
  (R.trees.lookup c).getD c

/-- Filesystem state relevant to one reconciliation target: the target
directory and the stale directories previously renamed aside (name, content).
Nothing in the script ever deletes a renamed-aside directory. -/
structure RepoFS where
  target : Dir
  saved : List (String × Dir)
deriving DecidableEq

/-- State semantics of a git download function, assuming every external
command succeeds: possible rename to the timestamped name, possible fresh
clone, then `select_git_branch` (fetch + forced checkout + hard reset) which
leaves the target at the resolved ref with no local modifications. -/
def git_download_state (R : GitRemote) (branch : String) (name : String)
    (update : Bool) (now : Nat) (s : RepoFS) : RepoFS :=
  let needMove := dirExists s.target && (!update || !hasGitMarker s.target)
  let s1 : RepoFS :=
    if needMove then ⟨Dir.absent, (tsName name now, s.target) :: s.saved⟩ else s
  let s2 : RepoFS :=
    if dirExists s1.target then s1
    else ⟨Dir.gitDir R.defaultHead (treeOf R R.defaultHead) false, s1.saved⟩
  ⟨Dir.gitDir (resolveRef R branch) (treeOf R (resolveRef R branch)) false, s2.saved⟩

/- ===== per-component git wrappers ===== -/

def simgearBranch (stable : Bool) : String :=
  if stable then SIMGEAR_STABLE else SIMGEAR_UNSTABLE

def download_simgear_acts (d : Dir) (stable update : Bool)
    (name : String) (now : Nat) : List Act :=
  git_download_acts d update SIMGEAR_REPO (simgearBranch stable) name now

def download_simgear_state (R : GitRemote) (stable update : Bool)
    (name : String) (now : Nat) (s : RepoFS) : RepoFS :=
  git_download_state R (simgearBranch stable) name update now s

def openrtiBranch (stable : Bool) : String :=
  if stable then OPENRTI_STABLE else OPENRTI_UNSTABLE

def download_openrti_acts (d : Dir) (stable update : Bool)
    (name : String) (now : Nat) : List Act :=
  git_download_acts d update OPENRTI_REPO (openrtiBranch stable) name now

def download_openrti_state (R : GitRemote) (stable update : Bool)
    (name : String) (now : Nat) (s : RepoFS) : RepoFS :=
  git_download_state R (openrtiBranch stable) name update now s

def fgfsBranch (stable : Bool) : String :=
  if stable then FGFS_STABLE else "master"

def download_fgfs_acts (d : Dir) (stable update : Bool)
    (name : String) (now : Nat) : List Act :=
  git_download_acts d update FGFS_REPO (fgfsBranch stable) name now

/- ===== the svn-based download functions ===== -/

/-- A model of a remote subversion repository: revision number to
working-tree content, plus the latest revision. -/
structure SvnRepo where
  revTrees : List (String × String)
  headRev : String
deriving DecidableEq

def svnTreeAt (Q : SvnRepo) (r : String) : String :=
  (Q.revTrees.lookup r).getD r

/-- `download_plib(plib_source_dir, revision, update)` (lines 197-229):
if the directory exists, has the `.svn` marker and `update` is true, run
`svn update` (with `-r revision` when a revision is pinned) and return;
otherwise, when the directory exists, emit a warning (update requested) or a
debug line (update disabled) and rename it to the timestamped name; finally
run a fresh `svn checkout` (with `-r revision` when pinned). -/
def download_plib_acts (d : Dir) (rev : Option String) (update : Bool)
    (name : String) (now : Nat) : List Act :=
  if dirExists d && update && hasSvnMarker d then
    [Act.debug Msg.runningUpdate, Act.debug Msg.selectedRevision,
     Act.cmd (Cmd.svnUpdate rev)]
  else
    (if dirExists d then
       [(if update then Act.warn Msg.movingInvalid else Act.debug Msg.movingNoUpdate),
        Act.rename (tsName name now)]
     else []) ++
    [Act.debug Msg.runningCheckout, Act.debug Msg.selectedRevision,
     Act.cmd (Cmd.svnCheckout PLIB_REPO rev)]

/-- State semantics of `download_plib`, assuming commands succeed: in every
branch the target ends up a subversion working copy at the requested revision
(or at the repository head when no revision is pinned); only the move branch
pushes the old directory onto the saved list. -/
def download_plib_state (Q : SvnRepo) (rev : Option String) (update : Bool)
    (name : String) (now : Nat) (s : RepoFS) : RepoFS :=
  let tgt := Dir.svnDir (rev.getD Q.headRev) (svnTreeAt Q (rev.getD Q.headRev))
  if dirExists s.target && update && hasSvnMarker s.target then
    ⟨tgt, s.saved⟩
  else if dirExists s.target then
    ⟨tgt, (tsName name now, s.target) :: s.saved⟩
  else
    ⟨tgt, s.saved⟩

/-- `download_openscenegraph(osg_source_dir, stable, update)` (lines 280-302):
same decision structure as `download_plib` but the revision is baked into the
checkout URL and the update path runs a plain `svn update`. -/
def download_openscenegraph_acts (d : Dir) (stable update : Bool)
    (name : String) (now : Nat) : List Act :=
  if dirExists d && update && hasSvnMarker d then
    [Act.debug Msg.runningUpdate, Act.cmd (Cmd.svnUpdate none)]
  else
    (if dirExists d then
       [(if update then Act.warn Msg.movingInvalid else Act.debug Msg.movingNoUpdate),
        Act.rename (tsName name now)]
     else []) ++
    [Act.debug Msg.runningCheckout,
     Act.cmd (Cmd.svnCheckout
       (if stable then OSG_STABLE_REVISION else OSG_UNSTABLE_REVISION) none)]

example :
    download_simgear_acts (Dir.gitDir "c0" "t0" false) true true "simgear" 7
      = select_git_branch_acts SIMGEAR_STABLE := by decide

example :
    download_plib_acts Dir.absent (some "2172") true "plib" 0
      = [Act.debug Msg.runningCheckout, Act.debug Msg.selectedRevision,
         Act.cmd (Cmd.svnCheckout PLIB_REPO (some "2172"))] := by decide

/- ===== the executor: run = subprocess.check_call (lines 33-34) =====

An exit-code oracle assigns a return status to every external command; log
lines and direct filesystem mutations cannot return non-zero.  There is no
try/except around any `run` call in the download or build functions, and no
try/except in `__main__`, so the first CalledProcessError stops everything. -/

def actExit (oracle : Cmd → Nat) : Act → Nat
  | Act.cmd c => oracle c
  | Act.pyError => 1
  | _ => 0

/-- Execute a plan in order; the first act with non-zero status stops the run.
Returns the acts that actually executed (the failing one included — its
partial effects are not rolled back) and, on failure, the failing act with
its exit status (what CalledProcessError carries as cmd and returncode). -/
def runActs (ef : Act → Nat) : List Act → List Act × Option (Act × Nat)
  | [] => ([], none)
  | a :: rest =>
      if ef a = 0 then
        let r := runActs ef rest
        (a :: r.1, r.2)
      else ([a], some (a, ef a))

/- ===== cmake cache purge (lines 319-322, 394-397, 466-469, 587-590) ===== -/

/-- Presence of the checked cache file (`source_dir/CMakeCache.txt`) after an
act: `os.unlink` removes it; renaming the source directory aside moves it
away with the directory; a fresh clone or checkout does not contain it. -/
def cacheAfter (c : Bool) : Act → Bool
  | Act.unlinkCache => false
  | Act.rename _ => false
  | Act.cmd (Cmd.gitClone _) => false
  | Act.cmd (Cmd.svnCheckout _ _) => false
  | _ => c

def cacheAfterList (c : Bool) (l : List Act) : Bool :=
  l.foldl cacheAfter c

/-- Pair every act of a plan with the presence of the cache file at the
moment the act runs. -/
def annotateCache (c : Bool) : List Act → List (Act × Bool)
  | [] => []
  | a :: rest => (a, c) :: annotateCache (cacheAfter c a) rest

/-- The reconfigure block shared by the four cmake components: check
`os.path.exists(cmakecache_file)`, unlink it when present, then invoke
`cmake` with the release flags and the install prefix. -/
def cmake_configure_acts (cacheExists : Bool) (installDir : String) : List Act :=
  (if cacheExists then [Act.unlinkCache] else []) ++ [Act.cmd (Cmd.cmake installDir)]

/-- `run('make', ...)` then `run('make', 'install')`. -/
def make_acts (flags : List String) : List Act :=
  [Act.cmd (Cmd.make flags), Act.cmd Cmd.makeInstall]

/- ===== per-component build functions ===== -/

/-- `build_plib` (lines 232-269).  Note line 243: the call
`download_plib(plib_source_dir, revision=plib_revision)` does not forward the
`update` parameter, so the download always runs with its default
`update=True`; the `update` argument of `build_plib` is accepted and ignored,
which the unused binder mirrors. -/
def build_plib_acts (d : Dir) (stable update reconfigure : Bool)
    (installDir : String) (flags : List String)
    (name : String) (now : Nat) : List Act :=
  download_plib_acts d (if stable then some PLIB_STABLE_REVISION else none) true name now ++
  (if reconfigure then [Act.cmd Cmd.autogen, Act.cmd (Cmd.configure installDir)] else []) ++
  make_acts flags

/-- `build_openscenegraph` (lines 305-340); after `make install` a `lib`
symlink is created when missing (lines 338-340). -/
def build_openscenegraph_acts (d : Dir) (stable update reconfigure : Bool)
    (cache0 : Bool) (libdirExists : Bool) (installDir : String)
    (flags : List String) (name : String) (now : Nat) : List Act :=
  let dl := download_openscenegraph_acts d stable update name now
  dl ++
  (if reconfigure then cmake_configure_acts (cacheAfterList cache0 dl) installDir else []) ++
  make_acts flags ++
  (if libdirExists then [] else [Act.symlinkLib])

/-- `build_openrti` (lines 379-413). -/
def build_openrti_acts (d : Dir) (stable update reconfigure : Bool)
    (cache0 : Bool) (installDir : String) (flags : List String)
    (name : String) (now : Nat) : List Act :=
  let dl := download_openrti_acts d stable update name now
  dl ++
  (if reconfigure then cmake_configure_acts (cacheAfterList cache0 dl) installDir else []) ++
  make_acts flags

/-- `build_simgear` (lines 452-484). -/
def build_simgear_acts (d : Dir) (stable update reconfigure : Bool)
    (cache0 : Bool) (installDir : String) (flags : List String)
    (name : String) (now : Nat) : List Act :=
  let dl := download_simgear_acts d stable update name now
  dl ++
  (if reconfigure then cmake_configure_acts (cacheAfterList cache0 dl) installDir else []) ++
  make_acts flags

/-- `build_fgfs` (lines 573-617).  After `make install` the launcher stubs
are written: `run_fgfs` is written verbatim, then formatting
`FGFS_RUN_DEBUG_SCRIPT` raises (see `fgfs_launcher_writes` below), so the
plan ends with the write of `run_fgfs` followed by the Python exception. -/
def build_fgfs_acts (d : Dir) (stable update reconfigure : Bool)
    (cache0 : Bool) (installDir : String) (flags : List String)
    (name : String) (now : Nat) : List Act :=
  let dl := download_fgfs_acts d stable update name now
  dl ++
  (if reconfigure then cmake_configure_acts (cacheAfterList cache0 dl) installDir else []) ++
  make_acts flags ++
  [Act.writeFile "run_fgfs", Act.pyError]

/- ===== __main__ (lines 674-720) ===== -/

/-- The top-level callable steps of the script. -/
inductive BuildStep where
  | build_plib
  | build_openscenegraph
  | build_openrti
  | build_simgear
  | build_fgfs
  | download_fgdata
  | install_packages
deriving DecidableEq

/-- The sequence of steps `__main__` actually performs (lines 699-720): the
`install_packages()` call is commented out (line 699) and `download_fgdata`
is never invoked anywhere in the file. -/
def main_sequence : List BuildStep :=
  [BuildStep.build_plib, BuildStep.build_openscenegraph, BuildStep.build_openrti,
   BuildStep.build_simgear, BuildStep.build_fgfs]

/-- The full action trace of `__main__`: each build function is called with
`build_dir`, `install_dir` and `make_flags` only, so `stable=True`,
`update=True`, `reconfigure=True` everywhere. -/
def main_acts (installDir : String) (flags : List String) (now : Nat)
    (dPlib dOsg dRti dSg dFg : Dir)
    (cOsg cRti cSg cFg : Bool) (libdirExists : Bool) : List Act :=
  build_plib_acts dPlib true true true installDir flags "plib" now ++
  build_openscenegraph_acts dOsg true true true cOsg libdirExists installDir flags "osg" now ++
  build_openrti_acts dRti true true true cRti installDir flags "openrti" now ++
  build_simgear_acts dSg true true true cSg installDir flags "simgear" now ++
  build_fgfs_acts dFg true true true cFg installDir flags "fgfs" now

/- ===== launcher stub generation (lines 522-617) ===== -/

/-- A replacement field of a Python format template: a named field or an
automatically numbered positional field. -/
inductive FmtField where
  | named (n : String)
  | auto
deriving DecidableEq

inductive FmtError where
  | keyError (n : String)
  | indexError
deriving DecidableEq

/-- Left-to-right scan of `str.format` over the template fields with the
given keyword-argument names and `np` positional arguments: a named field
whose name is not among the keywords raises KeyError, an auto field with the
positional arguments exhausted raises IndexError. -/
def pyFormatScan : List FmtField → List String → Nat → Option FmtError
  | [], _, _ => none
  | FmtField.named n :: rest, kw, np =>
      if n ∈ kw then pyFormatScan rest kw np else some (FmtError.keyError n)
  | FmtField.auto :: rest, kw, np =>
      if np = 0 then some FmtError.indexError else pyFormatScan rest kw (np - 1)

/-- The four replacement fields of `FGFS_RUN_DEBUG_SCRIPT` (lines 547-559) in
template order: the named field `sources_dir` (line 552), the bare field of
the fg-root argument (line 555), the field opened by the unescaped dict brace
of the environment literal (line 556 — its name carries quote characters in
the source, elided here), and the bare field of the gdb directory argument
(line 557). -/
def fgfs_run_debug_script_fields : List FmtField :=
  [FmtField.named "sources_dir", FmtField.auto,
   FmtField.named "LD_LIBRARY_PATH", FmtField.auto]

/-- The stub-writing tail of `build_fgfs` (lines 608-617): `run_fgfs` is
written verbatim; then `FGFS_RUN_DEBUG_SCRIPT.format(source_dir=source_dir)`
— one keyword argument named `source_dir`, zero positional arguments — is
evaluated; only if it succeeded would `run_fgfs_debug` and `run_terrasync`
be written.  No `chmod` is ever applied, so every written file carries the
default non-executable mode (the Boolean component). -/
def fgfs_launcher_writes : List (String × Bool) × Option FmtError :=
  match pyFormatScan fgfs_run_debug_script_fields ["source_dir"] 0 with
  | some e => ([("run_fgfs", false)], some e)
  | none => ([("run_fgfs", false), ("run_fgfs_debug", false), ("run_terrasync", false)], none)

/- ===== install_packages / identify_distro (lines 41-55, 164-186) ===== -/

/-- `lsb_release -si` / `-sr` / `-sc` results, as a triple. -/
def ReleaseInfo := String × String × String
deriving DecidableEq

def SUPPORTED_DISTROS : List ReleaseInfo :=
  [("Debian", "7.0", "wheezy"), ("Debian", "7.1", "wheezy")]

/-- `identify_distro()`: when the `lsb_release` invocations succeed, the
stripped triple is returned; on any failure the bare `except` swallows the
error, the to-do fallback is unimplemented and the function returns None. -/
def identify_distro (lsbOk : Bool) (d r c : String) : Option ReleaseInfo :=
  if lsbOk then some (d, r, c) else none

/-- Outcome of one `install_packages()` call: whether it crashed with an
unhandled Python exception, whether the unsupported-distribution warning was
emitted, and whether the apt-get steps were reached. -/
structure PkgRun where
  crashed : Bool
  warned : Bool
  aptRan : Bool
deriving DecidableEq

/-- `install_packages()` (lines 170-186): with `release_info = None` the very
first use, `"Release: ... ".format(*release_info)` (line 175), raises an
unhandled TypeError (argument after * must be an iterable); with a triple,
the not-in-SUPPORTED_DISTROS check downgrades to a warning and the apt-get
update/install calls run either way. -/
def install_packages (release_info : Option ReleaseInfo) : PkgRun :=
  match release_info with
  | none => ⟨true, false, false⟩
  | some ri => ⟨false, decide (ri ∉ SUPPORTED_DISTROS), true⟩

/- ===== the chdir context manager (lines 88-101) ===== -/

/-- Process state seen by `chdir`: the current working directory and the set
of existing directories, a path being its segment list. -/
structure ProcState where
  cwd : List String
  dirs : List (List String)
deriving DecidableEq

/-- The nonempty ancestor chain of a path, shortest first: for a/b/c the
paths a, a/b, a/b/c. -/
def ancestorsOf : List String → List (List String)
  | [] => []
  | a :: rest => [a] :: (ancestorsOf rest).map (fun p => a :: p)

/-- `os.makedirs(newdir)`: create the directory and every missing parent. -/
def makedirs (p : List String) (dirs : List (List String)) : List (List String) :=
  dirs ++ (ancestorsOf p).filter (fun q => decide (q ∉ dirs))

/-- `chdir.__enter__` (lines 93-98): remember the old working directory,
create the target (with parents) when it does not exist, switch into it.
Returns the new process state and the remembered old directory. -/
def chdir_enter (newdir : List String) (s : ProcState) : ProcState × List String :=
  (⟨newdir, if newdir ∈ s.dirs then s.dirs else makedirs newdir s.dirs⟩, s.cwd)

/-- `chdir.__exit__` (lines 100-101): switch back to the remembered
directory, whatever happened in the block. -/
def chdir_exit (olddir : List String) (s : ProcState) : ProcState :=
  ⟨olddir, s.dirs⟩

/-- The `with chdir(nd): body` statement: Python runs `__exit__` on every
exit path, normal or exceptional, and an exception of the body (the `.error`
outcome) is re-raised unchanged after `__exit__`. -/
def with_chdir {ε α : Type} (newdir : List String)
    (body : ProcState → ProcState × Except ε α) (s : ProcState) :
    ProcState × Except ε α :=
  let es := chdir_enter newdir s
  let br := body es.1
  (chdir_exit es.2 br.1, br.2)

example : fgfs_launcher_writes
    = ([("run_fgfs", false)], some (FmtError.keyError "sources_dir")) := by decide

example : install_packages (identify_distro false "Debian" "7.0" "wheezy")
    = ⟨true, false, false⟩ := rfl

/- ===================================================================== -/
/- ===== Claims ======================================================== -/
/- ===================================================================== -/

/-- C1, counterexample: the claim says an existing directory with the correct
metadata marker is left exactly as-is when updating is disallowed.  On a
valid git clone at commit c0 with update=false, `download_simgear` instead
changes the directory state and its plan issues both a rename and a clone
(a network operation). -/
theorem download_simgear_noupdate_frame_cx :
    ¬ (download_simgear_state ⟨[("version/2.10.0-final", "c1")], [("c1", "t1")], "c0"⟩
         true false "simgear" 7 ⟨Dir.gitDir "c0" "t0" false, []⟩
       = ⟨Dir.gitDir "c0" "t0" false, []⟩)
    ∧ Act.cmd (Cmd.gitClone SIMGEAR_REPO)
        ∈ download_simgear_acts (Dir.gitDir "c0" "t0" false) true false "simgear" 7
    ∧ Act.rename (tsName "simgear" 7)
        ∈ download_simgear_acts (Dir.gitDir "c0" "t0" false) true false "simgear" 7 := by
  refine ⟨?_, ?_, ?_⟩ <;> decide

/-- C1 (amended): when the target directory exists — valid checkout or not —
and `update` is false, `download_simgear` renames it to its timestamped name
(content preserved on the saved list, nothing deleted), emits the
update-disabled debug message, clones afresh and switches the new clone to
the requested revision; the plan is exactly move, clone, then the three
branch-selection commands. -/
theorem download_simgear_noupdate_moves_and_reclones
    (R : GitRemote) (stable : Bool) (name : String) (now : Nat) (s : RepoFS)
    (h : dirExists s.target = true) :
    download_simgear_state R stable false name now s =
      ⟨Dir.gitDir (resolveRef R (simgearBranch stable))
         (treeOf R (resolveRef R (simgearBranch stable))) false,
       (tsName name now, s.target) :: s.saved⟩
    ∧ download_simgear_acts s.target stable false name now =
        [Act.debug Msg.movingNoUpdate, Act.rename (tsName name now),
         Act.debug Msg.runningClone, Act.cmd (Cmd.gitClone SIMGEAR_REPO)] ++
        select_git_branch_acts (simgearBranch stable) := by
  obtain ⟨tgt, sv⟩ := s
  cases tgt with
  | absent => simp [dirExists] at h
  | svnDir r t =>
      exact ⟨rfl, rfl⟩
  | gitDir c t m =>
      exact ⟨rfl, rfl⟩
  | plainDir t =>
      exact ⟨rfl, rfl⟩

/-- C1 witness: the amended theorem applied to a concrete valid clone. -/
theorem download_simgear_noupdate_moves_and_reclones_witness :
    dirExists (Dir.gitDir "c0" "t0" false) = true
    ∧ download_simgear_state ⟨[("version/2.10.0-final", "c1")], [("c1", "t1")], "c0"⟩
        true false "simgear" 7 ⟨Dir.gitDir "c0" "t0" false, []⟩ =
      ⟨Dir.gitDir
         (resolveRef ⟨[("version/2.10.0-final", "c1")], [("c1", "t1")], "c0"⟩
           (simgearBranch true))
         (treeOf ⟨[("version/2.10.0-final", "c1")], [("c1", "t1")], "c0"⟩
           (resolveRef ⟨[("version/2.10.0-final", "c1")], [("c1", "t1")], "c0"⟩
             (simgearBranch true))) false,
       (tsName "simgear" 7, Dir.gitDir "c0" "t0" false) :: []⟩ :=
  ⟨by decide,
   (download_simgear_noupdate_moves_and_reclones
      ⟨[("version/2.10.0-final", "c1")], [("c1", "t1")], "c0"⟩ true "simgear" 7
      ⟨Dir.gitDir "c0" "t0" false, []⟩ (by decide)).1⟩

/-- C2: an existing target directory that lacks the `.git` marker, with
updating allowed, is renamed to its timestamped name — its content stays
reachable on the saved list, nothing is deleted — a warning is emitted, and a
fresh valid clone positioned at the requested revision appears at the
original path. -/
theorem download_openrti_invalid_dir_relocated
    (R : GitRemote) (stable : Bool) (name : String) (now : Nat) (s : RepoFS)
    (hex : dirExists s.target = true) (hmk : hasGitMarker s.target = false) :
    download_openrti_state R stable true name now s =
      ⟨Dir.gitDir (resolveRef R (openrtiBranch stable))
         (treeOf R (resolveRef R (openrtiBranch stable))) false,
       (tsName name now, s.target) :: s.saved⟩
    ∧ download_openrti_acts s.target stable true name now =
        [Act.warn Msg.movingInvalid, Act.rename (tsName name now),
         Act.debug Msg.runningClone, Act.cmd (Cmd.gitClone OPENRTI_REPO)] ++
        select_git_branch_acts (openrtiBranch stable) := by
  obtain ⟨tgt, sv⟩ := s
  cases tgt with
  | absent => simp [dirExists] at hex
  | svnDir r t => exact ⟨rfl, rfl⟩
  | gitDir c t m => simp [hasGitMarker] at hmk
  | plainDir t => exact ⟨rfl, rfl⟩

/-- C2 witness: the theorem applied to a concrete plain directory holding
unrelated files. -/
theorem download_openrti_invalid_dir_relocated_witness :
    dirExists (Dir.plainDir "junk") = true
    ∧ hasGitMarker (Dir.plainDir "junk") = false
    ∧ download_openrti_state ⟨[("OpenRTI-0.3.0", "c9")], [("c9", "t9")], "c0"⟩
        true true "openrti" 3 ⟨Dir.plainDir "junk", []⟩ =
      ⟨Dir.gitDir
         (resolveRef ⟨[("OpenRTI-0.3.0", "c9")], [("c9", "t9")], "c0"⟩
           (openrtiBranch true))
         (treeOf ⟨[("OpenRTI-0.3.0", "c9")], [("c9", "t9")], "c0"⟩
           (resolveRef ⟨[("OpenRTI-0.3.0", "c9")], [("c9", "t9")], "c0"⟩
             (openrtiBranch true))) false,
       (tsName "openrti" 3, Dir.plainDir "junk") :: []⟩ :=
  ⟨by decide, by decide,
   (download_openrti_invalid_dir_relocated
      ⟨[("OpenRTI-0.3.0", "c9")], [("c9", "t9")], "c0"⟩ true "openrti" 3
      ⟨Dir.plainDir "junk", []⟩ (by decide) (by decide)).1⟩

/-- C8: reconciling an already-valid checkout twice in a row against the same
revision specifier (and the same remote) gives the same final state as
reconciling once — for the git reconciliation (fetch, forced checkout, hard
reset) and for the subversion reconciliation of plib (svn update to a pinned
revision or to head). -/
theorem reconcile_same_revision_idempotent :
    (∀ (R : GitRemote) (branch name : String) (n1 n2 : Nat) (s : RepoFS)
       (c t : String) (m : Bool), s.target = Dir.gitDir c t m →
       git_download_state R branch name true n2 (git_download_state R branch name true n1 s)
         = git_download_state R branch name true n1 s)
    ∧ (∀ (Q : SvnRepo) (rev : Option String) (name : String) (n1 n2 : Nat)
         (s : RepoFS) (r t : String), s.target = Dir.svnDir r t →
       download_plib_state Q rev true name n2 (download_plib_state Q rev true name n1 s)
         = download_plib_state Q rev true name n1 s) := by
  constructor
  · intro R branch name n1 n2 s c t m h
    obtain ⟨tgt, sv⟩ := s
    simp only at h
    subst h
    rfl
  · intro Q rev name n1 n2 s r t h
    obtain ⟨tgt, sv⟩ := s
    simp only at h
    subst h
    rfl

/-- C8 witness: both halves applied to concrete valid checkouts. -/
theorem reconcile_same_revision_idempotent_witness :
    (git_download_state ⟨[("b", "c1")], [("c1", "t1")], "c0"⟩ "b" "d" true 2
       (git_download_state ⟨[("b", "c1")], [("c1", "t1")], "c0"⟩ "b" "d" true 1
         ⟨Dir.gitDir "c0" "t0" true, []⟩)
     = git_download_state ⟨[("b", "c1")], [("c1", "t1")], "c0"⟩ "b" "d" true 1
         ⟨Dir.gitDir "c0" "t0" true, []⟩)
    ∧ (download_plib_state ⟨[("2172", "t2")], "2200"⟩ (some "2172") true "plib" 2
         (download_plib_state ⟨[("2172", "t2")], "2200"⟩ (some "2172") true "plib" 1
           ⟨Dir.svnDir "2000" "t0", []⟩)
       = download_plib_state ⟨[("2172", "t2")], "2200"⟩ (some "2172") true "plib" 1
           ⟨Dir.svnDir "2000" "t0", []⟩) := by
  constructor
  · exact reconcile_same_revision_idempotent.1
      ⟨[("b", "c1")], [("c1", "t1")], "c0"⟩ "b" "d" 1 2
      ⟨Dir.gitDir "c0" "t0" true, []⟩ "c0" "t0" true rfl
  · exact reconcile_same_revision_idempotent.2
      ⟨[("2172", "t2")], "2200"⟩ (some "2172") "plib" 1 2
      ⟨Dir.svnDir "2000" "t0", []⟩ "2000" "t0" rfl

/- ===== helper lemmas about the executor ===== -/

theorem runActs_append_ok (ef : Act → Nat) (l1 l2 : List Act)
    (h : ∀ a ∈ l1, ef a = 0) :
    runActs ef (l1 ++ l2) = (l1 ++ (runActs ef l2).1, (runActs ef l2).2) := by
  induction l1 with
  | nil => simp
  | cons a t ih =>
      have ha : ef a = 0 := h a (List.mem_cons_self a t)
      have ht : ∀ b ∈ t, ef b = 0 := fun b hb => h b (List.mem_cons_of_mem a hb)
      simp [runActs, ha, ih ht]

/-- C4: revision selection after the move/clone logic of a git download is
always the three-step sequence fetch, forced checkout of the target ref, hard
reset, in this order, and a non-zero exit of any of the three stops the
reconciliation right there: the error carries the failing command and its
exit status, and no later step of the sequence runs. -/
theorem select_branch_three_steps_and_abort :
    (∀ b, select_git_branch_acts b =
       [Act.cmd Cmd.gitFetch, Act.cmd (Cmd.gitCheckoutForce b), Act.cmd Cmd.gitResetHard])
    ∧ (∀ d u repo branch name now,
        git_download_acts d u repo branch name now =
          git_download_pre d u repo name now ++ select_git_branch_acts branch)
    ∧ (∀ (oracle : Cmd → Nat) (d : Dir) (u : Bool) (repo branch name : String) (now : Nat),
        (∀ a ∈ git_download_pre d u repo name now, actExit oracle a = 0) →
        ((oracle Cmd.gitFetch ≠ 0 →
            runActs (actExit oracle) (git_download_acts d u repo branch name now)
              = (git_download_pre d u repo name now ++ [Act.cmd Cmd.gitFetch],
                 some (Act.cmd Cmd.gitFetch, oracle Cmd.gitFetch)))
         ∧ (oracle Cmd.gitFetch = 0 → oracle (Cmd.gitCheckoutForce branch) ≠ 0 →
            runActs (actExit oracle) (git_download_acts d u repo branch name now)
              = (git_download_pre d u repo name now
                   ++ [Act.cmd Cmd.gitFetch, Act.cmd (Cmd.gitCheckoutForce branch)],
                 some (Act.cmd (Cmd.gitCheckoutForce branch),
                       oracle (Cmd.gitCheckoutForce branch))))
         ∧ (oracle Cmd.gitFetch = 0 → oracle (Cmd.gitCheckoutForce branch) = 0 →
            oracle Cmd.gitResetHard ≠ 0 →
            runActs (actExit oracle) (git_download_acts d u repo branch name now)
              = (git_download_pre d u repo name now ++ select_git_branch_acts branch,
                 some (Act.cmd Cmd.gitResetHard, oracle Cmd.gitResetHard))))) := by
  refine ⟨fun b => rfl, fun d u repo branch name now => rfl, ?_⟩
  intro oracle d u repo branch name now hpre
  refine ⟨?_, ?_, ?_⟩
  · intro hf
    have hsel : runActs (actExit oracle) (select_git_branch_acts branch)
        = ([Act.cmd Cmd.gitFetch], some (Act.cmd Cmd.gitFetch, oracle Cmd.gitFetch)) := by
      simp [select_git_branch_acts, runActs, actExit, hf]
    rw [show git_download_acts d u repo branch name now
          = git_download_pre d u repo name now ++ select_git_branch_acts branch from rfl,
        runActs_append_ok _ _ _ hpre, hsel]
  · intro hf hco
    have hsel : runActs (actExit oracle) (select_git_branch_acts branch)
        = ([Act.cmd Cmd.gitFetch, Act.cmd (Cmd.gitCheckoutForce branch)],
           some (Act.cmd (Cmd.gitCheckoutForce branch),
                 oracle (Cmd.gitCheckoutForce branch))) := by
      simp [select_git_branch_acts, runActs, actExit, hf, hco]
    rw [show git_download_acts d u repo branch name now
          = git_download_pre d u repo name now ++ select_git_branch_acts branch from rfl,
        runActs_append_ok _ _ _ hpre, hsel]
  · intro hf hco hr
    have hsel : runActs (actExit oracle) (select_git_branch_acts branch)
        = (select_git_branch_acts branch,
           some (Act.cmd Cmd.gitResetHard, oracle Cmd.gitResetHard)) := by
      simp [select_git_branch_acts, runActs, actExit, hf, hco, hr]
    rw [show git_download_acts d u repo branch name now
          = git_download_pre d u repo name now ++ select_git_branch_acts branch from rfl,
        runActs_append_ok _ _ _ hpre, hsel]

def failFetchOracle : Cmd → Nat := fun c => if c = Cmd.gitFetch then 1 else 0

/-- C4 witness: on a fresh clone with a fetch that exits non-zero, the run
stops right after the fetch. -/
theorem select_branch_three_steps_and_abort_witness :
    runActs (actExit failFetchOracle) (git_download_acts Dir.absent true "repo" "b" "d" 5)
      = (git_download_pre Dir.absent true "repo" "d" 5 ++ [Act.cmd Cmd.gitFetch],
         some (Act.cmd Cmd.gitFetch, failFetchOracle Cmd.gitFetch)) :=
  ((select_branch_three_steps_and_abort.2.2 failFetchOracle Dir.absent true "repo" "b" "d" 5
      (by decide)).1 (by decide))

/-- C7: during a full run every external tool invocation goes through `run`,
i.e. subprocess.check_call, with no surrounding try/except: whichever command
is the first to exit non-zero, the run executes exactly the acts up to and
including it (the partial effects of the earlier acts stand, nothing is
rolled back), surfaces an error carrying that command and its exit status,
and executes nothing that follows — in particular no later component. -/
theorem external_failure_aborts_run
    (oracle : Cmd → Nat) (installDir : String) (flags : List String) (now : Nat)
    (dPlib dOsg dRti dSg dFg : Dir) (cOsg cRti cSg cFg libdirExists : Bool)
    (l1 l2 : List Act) (c : Cmd)
    (hdec : main_acts installDir flags now dPlib dOsg dRti dSg dFg cOsg cRti cSg cFg libdirExists
            = l1 ++ Act.cmd c :: l2)
    (hok : ∀ a ∈ l1, actExit oracle a = 0) (hc : oracle c ≠ 0) :
    runActs (actExit oracle)
        (main_acts installDir flags now dPlib dOsg dRti dSg dFg cOsg cRti cSg cFg libdirExists)
      = (l1 ++ [Act.cmd c], some (Act.cmd c, oracle c)) := by
  rw [hdec, runActs_append_ok _ _ _ hok]
  simp [runActs, actExit, hc]

def plibFailOracle : Cmd → Nat :=
  fun c => if c = Cmd.svnCheckout PLIB_REPO (some PLIB_STABLE_REVISION) then 2 else 0

/-- C7 witness: an empty build root where the very first external command,
the plib checkout, exits with status 2 — the run stops there, before any
other component. -/
theorem external_failure_aborts_run_witness :
    runActs (actExit plibFailOracle)
        (main_acts "inst" [] 0 Dir.absent Dir.absent Dir.absent Dir.absent Dir.absent
          false false false false true)
      = ([Act.debug Msg.runningCheckout, Act.debug Msg.selectedRevision,
          Act.cmd (Cmd.svnCheckout PLIB_REPO (some PLIB_STABLE_REVISION))],
         some (Act.cmd (Cmd.svnCheckout PLIB_REPO (some PLIB_STABLE_REVISION)),
               plibFailOracle (Cmd.svnCheckout PLIB_REPO (some PLIB_STABLE_REVISION)))) :=
  external_failure_aborts_run plibFailOracle "inst" [] 0 Dir.absent Dir.absent Dir.absent
    Dir.absent Dir.absent false false false false true
    [Act.debug Msg.runningCheckout, Act.debug Msg.selectedRevision]
    ((main_acts "inst" [] 0 Dir.absent Dir.absent Dir.absent Dir.absent Dir.absent
       false false false false true).drop 3)
    (Cmd.svnCheckout PLIB_REPO (some PLIB_STABLE_REVISION))
    (by decide) (by decide) (by decide)

/-- C5: in the reconfigure block of a cmake component, for every state of the
checked cache file at block entry, the cmake configure invocation runs with
the cache file absent — when it pre-exists, the unlink removes it first. -/
theorem cmake_cache_removed_before_configure
    (c : Bool) (installDir : String) (p : Act × Bool)
    (hp : p ∈ annotateCache c (cmake_configure_acts c installDir))
    (hcm : p.1 = Act.cmd (Cmd.cmake installDir)) : p.2 = false := by
  cases c with
  | false =>
      simp [cmake_configure_acts, annotateCache, cacheAfter] at hp
      subst hp
      rfl
  | true =>
      simp [cmake_configure_acts, annotateCache, cacheAfter] at hp
      rcases hp with rfl | rfl
      · simp at hcm
      · rfl

/-- C5 witness: with the cache file present at block entry, the cmake act is
annotated with an absent cache. -/
theorem cmake_cache_removed_before_configure_witness :
    (Act.cmd (Cmd.cmake "inst"), false)
        ∈ annotateCache true (cmake_configure_acts true "inst")
    ∧ (Act.cmd (Cmd.cmake "inst"), false).1 = Act.cmd (Cmd.cmake "inst")
    ∧ ((Act.cmd (Cmd.cmake "inst"), false) : Act × Bool).2 = false :=
  ⟨by decide, by decide,
   cmake_cache_removed_before_configure true "inst" (Act.cmd (Cmd.cmake "inst"), false)
     (by decide) (by decide)⟩

/- ===== build phases (for the order claim) ===== -/

/-- The phase a given act belongs to inside one component's build cycle. -/
inductive Phase where
  | reconcile
  | configure
  | compile
  | install
  | fixup
deriving DecidableEq

def phaseRank : Phase → Nat
  | Phase.reconcile => 0
  | Phase.configure => 1
  | Phase.compile => 2
  | Phase.install => 3
  | Phase.fixup => 4

def phaseLe (a b : Phase) : Prop := phaseRank a ≤ phaseRank b

instance : DecidableRel phaseLe := fun a b => Nat.decLe (phaseRank a) (phaseRank b)

def phaseOf : Act → Phase
  | Act.cmd (Cmd.cmake _) => Phase.configure
  | Act.cmd Cmd.autogen => Phase.configure
  | Act.cmd (Cmd.configure _) => Phase.configure
  | Act.cmd (Cmd.make _) => Phase.compile
  | Act.cmd Cmd.makeInstall => Phase.install
  | Act.unlinkCache => Phase.configure
  | Act.symlinkLib => Phase.fixup
  | Act.writeFile _ => Phase.fixup
  | Act.pyError => Phase.fixup
  | _ => Phase.reconcile

/-- C3, counterexample: the claim says the five-component build sequence is
followed by a data-checkout step for the asset bundle; in `__main__` the
`download_fgdata` step is never invoked at all, so the performed sequence is
not the five builds followed by the data checkout. -/
theorem main_missing_fgdata_cx :
    BuildStep.download_fgdata ∉ main_sequence
    ∧ main_sequence ≠ [BuildStep.build_plib, BuildStep.build_openscenegraph,
        BuildStep.build_openrti, BuildStep.build_simgear, BuildStep.build_fgfs,
        BuildStep.download_fgdata] := by
  refine ⟨?_, ?_⟩ <;> decide

/-- C3 (amended): `__main__` performs exactly the five component builds, in
the order plib, OpenSceneGraph, OpenRTI, SimGear, FlightGear, each one a
reconcile-then-configure-compile-install cycle (the phases of each
component's act plan are monotonically ordered); the data-checkout step
exists as `download_fgdata` but is never invoked, so no data checkout follows
the sequence. -/
theorem main_build_order :
    main_sequence = [BuildStep.build_plib, BuildStep.build_openscenegraph,
      BuildStep.build_openrti, BuildStep.build_simgear, BuildStep.build_fgfs]
    ∧ BuildStep.download_fgdata ∉ main_sequence
    ∧ (∀ (d : Dir) (installDir : String) (flags : List String) (name : String) (now : Nat),
        List.Chain' phaseLe
          ((build_plib_acts d true true true installDir flags name now).map phaseOf))
    ∧ (∀ (d : Dir) (c0 lib : Bool) (installDir : String) (flags : List String)
         (name : String) (now : Nat),
        List.Chain' phaseLe
          ((build_openscenegraph_acts d true true true c0 lib installDir flags name now).map phaseOf))
    ∧ (∀ (d : Dir) (c0 : Bool) (installDir : String) (flags : List String)
         (name : String) (now : Nat),
        List.Chain' phaseLe
          ((build_openrti_acts d true true true c0 installDir flags name now).map phaseOf))
    ∧ (∀ (d : Dir) (c0 : Bool) (installDir : String) (flags : List String)
         (name : String) (now : Nat),
        List.Chain' phaseLe
          ((build_simgear_acts d true true true c0 installDir flags name now).map phaseOf))
    ∧ (∀ (d : Dir) (c0 : Bool) (installDir : String) (flags : List String)
         (name : String) (now : Nat),
        List.Chain' phaseLe
          ((build_fgfs_acts d true true true c0 installDir flags name now).map phaseOf)) := by
  refine ⟨rfl, by decide, ?_, ?_, ?_, ?_, ?_⟩
  · intro d installDir flags name now
    cases d <;>
      simp [build_plib_acts, download_plib_acts, make_acts, dirExists, hasSvnMarker,
        phaseOf, tsName] <;> decide
  · intro d c0 lib installDir flags name now
    cases d <;> cases c0 <;> cases lib <;>
      simp [build_openscenegraph_acts, download_openscenegraph_acts, make_acts,
        cmake_configure_acts, cacheAfterList, cacheAfter, dirExists, hasSvnMarker,
        phaseOf, tsName] <;> decide
  · intro d c0 installDir flags name now
    cases d <;> cases c0 <;>
      simp [build_openrti_acts, download_openrti_acts, git_download_acts,
        git_download_pre, select_git_branch_acts, make_acts, cmake_configure_acts,
        cacheAfterList, cacheAfter, dirExists, hasGitMarker, phaseOf, tsName] <;> decide
  · intro d c0 installDir flags name now
    cases d <;> cases c0 <;>
      simp [build_simgear_acts, download_simgear_acts, git_download_acts,
        git_download_pre, select_git_branch_acts, make_acts, cmake_configure_acts,
        cacheAfterList, cacheAfter, dirExists, hasGitMarker, phaseOf, tsName] <;> decide
  · intro d c0 installDir flags name now
    cases d <;> cases c0 <;>
      simp [build_fgfs_acts, download_fgfs_acts, git_download_acts,
        git_download_pre, select_git_branch_acts, make_acts, cmake_configure_acts,
        cacheAfterList, cacheAfter, dirExists, hasGitMarker, phaseOf, tsName] <;> decide

/-- C6: generating the launcher stubs after the application build fails —
formatting `FGFS_RUN_DEBUG_SCRIPT` with the single keyword `source_dir`
raises KeyError on the template's `sources_dir` field — so only `run_fgfs` is
ever written (non-executable: nothing applies chmod), not three executable
stubs. -/
theorem fgfs_launcher_generation_fails :
    fgfs_launcher_writes = ([("run_fgfs", false)], some (FmtError.keyError "sources_dir")) := by
  decide

/-- C9, counterexample: the claim says no outcome of platform identification
surfaces an unsupported-distribution condition as a hard error; when the
`lsb_release` probe fails (a platform outside the known-good list),
`identify_distro` returns None and `install_packages` crashes on its first
use of the result instead of warning and continuing. -/
theorem install_packages_unidentified_crashes_cx :
    install_packages (identify_distro false "Debian" "7.0" "wheezy")
      = ⟨true, false, false⟩ := rfl

/-- C9 (amended): when platform identification succeeds, a distribution
outside the known-good list is downgraded to a warning and the run continues
into the apt-get steps (and a supported one proceeds without warning); when
identification fails, `install_packages` raises an unhandled error before
reaching them. -/
theorem install_packages_unsupported_warns :
    (∀ d r c, (d, r, c) ∉ SUPPORTED_DISTROS →
      install_packages (identify_distro true d r c) = ⟨false, true, true⟩)
    ∧ (∀ d r c, (d, r, c) ∈ SUPPORTED_DISTROS →
      install_packages (identify_distro true d r c) = ⟨false, false, true⟩)
    ∧ (∀ d r c, install_packages (identify_distro false d r c) = ⟨true, false, false⟩) := by
  refine ⟨?_, ?_, fun d r c => rfl⟩
  · intro d r c h
    simp [install_packages, identify_distro, h]
  · intro d r c h
    simp [install_packages, identify_distro, h]

/-- C9 witness: a concrete unidentified-in-the-list platform triple. -/
theorem install_packages_unsupported_warns_witness :
    ("Slackware", "1.0", "x") ∉ SUPPORTED_DISTROS
    ∧ install_packages (identify_distro true "Slackware" "1.0" "x") = ⟨false, true, true⟩ :=
  ⟨by decide, install_packages_unsupported_warns.1 "Slackware" "1.0" "x" (by decide)⟩

/- ===== C10: the chdir context manager ===== -/

theorem self_mem_ancestorsOf : ∀ (l : List String), l ≠ [] → l ∈ ancestorsOf l
  | [], h => absurd rfl h
  | a :: rest, _ => by
      cases rest with
      | nil => simp [ancestorsOf]
      | cons b t =>
          have ih := self_mem_ancestorsOf (b :: t) (by simp)
          show a :: b :: t ∈ [a] :: (ancestorsOf (b :: t)).map (fun p => a :: p)
          exact List.mem_cons_of_mem _ (List.mem_map_of_mem _ ih)

theorem mem_makedirs_of_ancestor (p nd : List String) (dirs : List (List String))
    (h : p ∈ ancestorsOf nd) : p ∈ makedirs nd dirs := by
  by_cases hp : p ∈ dirs
  · exact List.mem_append_left _ hp
  · refine List.mem_append_right _ ?_
    simp [List.mem_filter, h, hp]

/-- C10: the scoped working-directory helper restores the caller's working
directory on every exit path — the final `cwd` equals the entry `cwd` no
matter what the body did or whether it raised, and the body's outcome
(value or exception) is passed through unchanged — and on entry it switches
into the target after creating it, with all missing parents, whenever it did
not already exist. -/
theorem with_chdir_restores_cwd {ε α : Type} (newdir : List String)
    (body : ProcState → ProcState × Except ε α) (s : ProcState) :
    (with_chdir newdir body s).1.cwd = s.cwd
    ∧ (with_chdir newdir body s).2 = (body (chdir_enter newdir s).1).2
    ∧ (chdir_enter newdir s).1.cwd = newdir
    ∧ (newdir ∉ s.dirs → ∀ p ∈ ancestorsOf newdir, p ∈ (chdir_enter newdir s).1.dirs)
    ∧ (newdir ≠ [] → newdir ∈ (chdir_enter newdir s).1.dirs) := by
  refine ⟨rfl, rfl, rfl, ?_, ?_⟩
  · intro hnd p hp
    simp only [chdir_enter, if_neg hnd]
    exact mem_makedirs_of_ancestor p newdir s.dirs hp
  · intro hne
    by_cases hmem : newdir ∈ s.dirs
    · simp [chdir_enter, hmem]
    · simp only [chdir_enter, if_neg hmem]
      exact mem_makedirs_of_ancestor newdir newdir s.dirs (self_mem_ancestorsOf newdir hne)

/-- C10 witness: a body that changes directory again and raises; the helper
still restores the original working directory, propagates the exception, and
has created the target directory and its parent. -/
theorem with_chdir_restores_cwd_witness :
    (with_chdir ["a", "b"]
        (fun st => (⟨["x"], st.dirs⟩, (Except.error 7 : Except Nat Nat)))
        ⟨["home"], [["home"]]⟩).1.cwd = ["home"]
    ∧ ["a"] ∈ (chdir_enter ["a", "b"] ⟨["home"], [["home"]]⟩).1.dirs
    ∧ ["a", "b"] ∈ (chdir_enter ["a", "b"] ⟨["home"], [["home"]]⟩).1.dirs :=
  ⟨(with_chdir_restores_cwd ["a", "b"]
      (fun st => (⟨["x"], st.dirs⟩, (Except.error 7 : Except Nat Nat)))
      ⟨["home"], [["home"]]⟩).1,
   (with_chdir_restores_cwd ["a", "b"]
      (fun st => (⟨["x"], st.dirs⟩, (Except.error 7 : Except Nat Nat)))
      ⟨["home"], [["home"]]⟩).2.2.2.1 (by decide) ["a"] (by decide),
   (with_chdir_restores_cwd ["a", "b"]
      (fun st => (⟨["x"], st.dirs⟩, (Except.error 7 : Except Nat Nat)))
      ⟨["home"], [["home"]]⟩).2.2.2.2 (by decide)⟩
